import Mathlib

/-!
# Verification of the `rule_of_five` / `shallow_vs_deep_copy` examples

Shallow embedding of the C++ demonstration types of the repository:

* `Tracer` from `code_examples/oop/rule_of_five/src/01_rule_of_five.h`
  (a name plus an owned `int*` resource; every special member function
  prints one trace line);
* the simplified name-only `Tracer` variant (second copy/move demo file),
  embedded here as `SimpleTracer`;
* `NaiveString` from
  `code_examples/memory/shallow_vs_deep_copy/src/01_naive_string.h`;
* the `main` dispatch switches of `shallow_vs_deep_copy/src/main.cpp` and
  of the `std_format` example's `main`.

The heap is explicit: an association list of live cells, a fresh-id
counter, and the multiset (list) of freed cell ids, so that double frees
and frees of the null pointer are observable.  `delete` of a null pointer
is a no-op, as in C++.  Dereferencing a pointer that is null or not live
is modelled by `Option.none` (the undefined-behaviour branch).
-/

namespace RuleOfFive

/-- Lookup of a cell id in an association list of live cells. -/
def lookupCell : List (Nat × Int) → Nat → Option Int
  | [], _ => none
  | p :: ps, c => if p.1 = c then some p.2 else lookupCell ps c

/-- Remove a cell id from an association list of live cells. -/
def removeCell : List (Nat × Int) → Nat → List (Nat × Int)
  | [], _ => []
  | p :: ps, c => if p.1 = c then removeCell ps c else p :: removeCell ps c

/-- Overwrite the value stored at a cell id. -/
def writeCell : List (Nat × Int) → Nat → Int → List (Nat × Int)
  | [], _, _ => []
  | p :: ps, c, v => if p.1 = c then (p.1, v) :: writeCell ps c v else p :: writeCell ps c v

/-- The explicit heap: live `int` cells, the next fresh id, and the list of
ids passed to a non-null `delete` so far (a double free shows up as a
duplicate). -/
structure Heap where
  cells : List (Nat × Int)
  nextId : Nat
  freed : List Nat
deriving Repr, DecidableEq

def emptyHeap : Heap := ⟨[], 0, []⟩

/-- `new int(v)`: allocate a fresh cell holding `v`. -/
def heapAlloc (h : Heap) (v : Int) : Heap × Nat :=
  (⟨(h.nextId, v) :: h.cells, h.nextId + 1, h.freed⟩, h.nextId)

/-- `*p` for `p : int*`: reading through a null or dead pointer yields
`none` (undefined behaviour). -/
def heapRead (h : Heap) (c : Nat) : Option Int :=
  lookupCell h.cells c

/-- `*p = v` through a live pointer. -/
def heapWrite (h : Heap) (c : Nat) (v : Int) : Heap :=
  ⟨writeCell h.cells c v, h.nextId, h.freed⟩

/-- `delete p`: a no-op on the null pointer, otherwise the cell is removed
from the live cells and its id is recorded in `freed`. -/
def heapDelete (h : Heap) : Option Nat → Heap
  | none => h
  | some c => ⟨removeCell h.cells c, h.nextId, h.freed ++ [c]⟩

/-- Every live cell id is below the fresh-id counter. -/
def heapWF (h : Heap) : Prop :=
  ∀ p ∈ h.cells, p.1 < h.nextId

/-- The `Tracer` object state: `std::string name` and `int* resource`,
with `none` modelling the null pointer. -/
structure Tracer where
  name : String
  resource : Option Nat
deriving Repr, DecidableEq

structure CtorResult where
  heap : Heap
  target : Tracer
  trace : List String
deriving Repr, DecidableEq

structure MoveResult where
  heap : Heap
  target : Tracer
  source : Tracer
  trace : List String
deriving Repr, DecidableEq

structure DtorResult where
  heap : Heap
  trace : List String
deriving Repr, DecidableEq

/-- `Tracer(std::string n) : name(std::move(n)), resource(new int(42))`,
printing `"  {name}: Constructor"`. -/
def Tracer.construct (h : Heap) (n : String) : CtorResult :=
  let (h1, c) := heapAlloc h 42
  ⟨h1, ⟨n, some c⟩, ["  " ++ n ++ ": Constructor"]⟩

/-- `~Tracer()`: prints `"  {name}: Destructor"` then `delete resource`
(a no-op when the resource is null). -/
def Tracer.destruct (h : Heap) (t : Tracer) : DtorResult :=
  ⟨heapDelete h t.resource, ["  " ++ t.name ++ ": Destructor"]⟩

/-- Copy constructor: `name(other.name), resource(new int(*other.resource))`,
printing `"  {name}: COPY Constructor from {other.name}"`.  `none` means the
initialiser dereferenced a null or dead `other.resource`. -/
def Tracer.copyConstruct (h : Heap) (other : Tracer) : Option CtorResult :=
  match other.resource with
  | none => none
  | some c =>
    match heapRead h c with
    | none => none
    | some v =>
      let (h1, c1) := heapAlloc h v
      some ⟨h1, ⟨other.name, some c1⟩,
        ["  " ++ other.name ++ ": COPY Constructor from " ++ other.name]⟩

/-- Copy assignment operator.  `same` is `this == &other`; the guard
returns `*this` before any print, allocation or free.  Otherwise the
trace line is printed, `new int(*other.resource)` is allocated first,
the old resource freed, and name copied.  `none` means the copy
dereferenced a null or dead `other.resource`. -/
def Tracer.copyAssign (h : Heap) (self other : Tracer) (same : Bool) :
    Option CtorResult :=
  if same then some ⟨h, self, []⟩
  else
    match other.resource with
    | none => none
    | some c =>
      match heapRead h c with
      | none => none
      | some v =>
        let (h1, c1) := heapAlloc h v
        let h2 := heapDelete h1 self.resource
        some ⟨h2, ⟨other.name, some c1⟩,
          ["  " ++ self.name ++ ": COPY Assignment from " ++ other.name]⟩

/-- Move constructor: saves `original_other_name`, move-assigns the name
(`std::move` of a `std::string` leaves the source empty — the libstdc++ /
libc++ behaviour the demo and its answer key rely on), steals the
resource pointer, prints
`"  {name}: MOVE Constructor from {original_other_name}"`, nulls the
source's resource and does `other.name += original_other_name + " [moved]"`. -/
def Tracer.moveConstruct (h : Heap) (other : Tracer) : MoveResult :=
  let original := other.name
  let target : Tracer := ⟨original, other.resource⟩
  let otherNameAfterMove : String := ""
  let source : Tracer := ⟨otherNameAfterMove ++ original ++ " [moved]", none⟩
  ⟨h, target, source,
    ["  " ++ target.name ++ ": MOVE Constructor from " ++ original]⟩

/-- Move assignment operator.  `same` is `this == &other`; the guard
returns before any effect.  Otherwise: save `original_other_name`, print
`"  {name}: MOVE Assignment from {other.name}"`, `delete resource`, steal
the pointer, `name = other.name` (a copy — `other.name` keeps its value),
null the source's resource and `other.name += original_other_name + " [moved]"`. -/
def Tracer.moveAssign (h : Heap) (self other : Tracer) (same : Bool) :
    MoveResult :=
  if same then ⟨h, self, other, []⟩
  else
    let original := other.name
    let h1 := heapDelete h self.resource
    let target : Tracer := ⟨other.name, other.resource⟩
    let source : Tracer := ⟨other.name ++ original ++ " [moved]", none⟩
    ⟨h1, target, source,
      ["  " ++ self.name ++ ": MOVE Assignment from " ++ other.name]⟩

/-! ## Trace-line helpers -/

def charsStartWith : List Char → List Char → Bool
  | _, [] => true
  | [], _ :: _ => false
  | c :: cs, p :: ps => c = p && charsStartWith cs ps

def charsHaveSub : List Char → List Char → Bool
  | [], pat => pat.isEmpty
  | c :: cs, pat => charsStartWith (c :: cs) pat || charsHaveSub cs pat

/-- Whether `pat` occurs as a substring of `s`. -/
def strContains (s pat : String) : Bool :=
  charsHaveSub s.data pat.data

/-- Number of trace lines containing `pat` as a substring. -/
def countContaining (ls : List String) (pat : String) : Nat :=
  (ls.filter fun l => strContains l pat).length

/-! ## The simplified name-only `Tracer` variant

The second copy/move demo file defines a `Tracer` with only a `name`
member and different trace wording (all-caps `CONSTRUCTOR` / `ASSIGNMENT`).
Embedded here as `SimpleTracer`; it touches no heap. -/

structure SimpleTracer where
  name : String
deriving Repr, DecidableEq

/-- `Tracer(std::string n) : name(std::move(n))`. -/
def SimpleTracer.construct (n : String) : SimpleTracer × List String :=
  (⟨n⟩, ["  " ++ n ++ ": Constructor"])

/-- `~Tracer()`. -/
def SimpleTracer.destruct (t : SimpleTracer) : List String :=
  ["  " ++ t.name ++ ": Destructor"]

/-- Copy constructor `Tracer(const Tracer& other) : name(other.name)`,
printing `"  {name}: COPY CONSTRUCTOR from {other.name}"` (here `name`
has just been initialised to `other.name`). -/
def SimpleTracer.copyConstruct (other : SimpleTracer) : SimpleTracer × List String :=
  (⟨other.name⟩, ["  " ++ other.name ++ ": COPY CONSTRUCTOR from " ++ other.name])

/-- Copy assignment: prints
`"  {name}: COPY ASSIGNMENT from {other.name}"` (with the old `name`)
then `name = other.name`. -/
def SimpleTracer.copyAssign (self other : SimpleTracer) : SimpleTracer × List String :=
  (⟨other.name⟩, ["  " ++ self.name ++ ": COPY ASSIGNMENT from " ++ other.name])

/-- Move constructor: prints
`"  {other.name}: MOVE CONSTRUCTOR (into a new object)"` then
`name = std::move(other.name)` (source string left empty). -/
def SimpleTracer.moveConstruct (other : SimpleTracer) :
    SimpleTracer × SimpleTracer × List String :=
  (⟨other.name⟩, ⟨""⟩, ["  " ++ other.name ++ ": MOVE CONSTRUCTOR (into a new object)"])

/-- Move assignment: prints
`"  {this->name}: MOVE ASSIGNMENT from {other.name}"` then
`name = std::move(other.name)`. -/
def SimpleTracer.moveAssign (self other : SimpleTracer) :
    SimpleTracer × SimpleTracer × List String :=
  (⟨other.name⟩, ⟨""⟩, ["  " ++ self.name ++ ": MOVE ASSIGNMENT from " ++ other.name])

/-! ## `std::vector<Tracer>` growth (exercise 6.1)

`vec.reserve(4)`, four `emplace_back`s, then a fifth forcing
reallocation.  During reallocation libstdc++ constructs the new element
first, then relocates each stored element: when the element type's move
constructor is `noexcept` (it is, line 41 of the source) relocation
move-constructs the element into the new buffer and immediately destroys
the vacated old-buffer object; otherwise it copy-constructs
(`std::move_if_noexcept`). -/

/-- The `Tracer` move operations are declared `noexcept` in the source. -/
def tracerMoveIsNoexcept : Bool := true

structure VecModel where
  elems : List Tracer
  cap : Nat
deriving Repr, DecidableEq

/-- Relocate one element into the new buffer (move or copy per
`useMove`), then destroy the vacated old-buffer object. -/
def relocateOne (h : Heap) (t : Tracer) (useMove : Bool) :
    Option (Heap × Tracer × List String) :=
  if useMove then
    let m := Tracer.moveConstruct h t
    let d := Tracer.destruct m.heap m.source
    some (d.heap, m.target, m.trace ++ d.trace)
  else
    match Tracer.copyConstruct h t with
    | none => none
    | some c =>
      let d := Tracer.destruct c.heap t
      some (d.heap, c.target, c.trace ++ d.trace)

def relocateAll (useMove : Bool) : Heap → List Tracer → Option (Heap × List Tracer × List String)
  | h, [] => some (h, [], [])
  | h, t :: ts =>
    match relocateOne h t useMove with
    | none => none
    | some (h1, t1, tr1) =>
      match relocateAll useMove h1 ts with
      | none => none
      | some (h2, ts2, tr2) => some (h2, t1 :: ts2, tr1 ++ tr2)

/-- `emplace_back(nm)`: construct in place while below capacity,
otherwise grow (double the capacity), constructing the new element first
and then relocating the stored ones. -/
def VecModel.emplace (h : Heap) (v : VecModel) (nm : String) (useMove : Bool) :
    Option (Heap × VecModel × List String) :=
  if v.elems.length < v.cap then
    let r := Tracer.construct h nm
    some (r.heap, ⟨v.elems ++ [r.target], v.cap⟩, r.trace)
  else
    let newCap := if v.cap = 0 then 1 else 2 * v.cap
    let r := Tracer.construct h nm
    match relocateAll useMove r.heap v.elems with
    | none => none
    | some (h2, moved, tr) => some (h2, ⟨moved ++ [r.target], newCap⟩, r.trace ++ tr)

def runEmplaces (useMove : Bool) : Heap → VecModel → List String →
    Option (Heap × VecModel × List String)
  | h, v, [] => some (h, v, [])
  | h, v, nm :: nms =>
    match VecModel.emplace h v nm useMove with
    | none => none
    | some (h1, v1, tr1) =>
      match runEmplaces useMove h1 v1 nms with
      | none => none
      | some (h2, v2, tr2) => some (h2, v2, tr1 ++ tr2)

/-- State after `vec.reserve(4)` and the four `emplace_back`s of
exercise 6.1 (none of which relocates). -/
def ex6State4 : Option (Heap × VecModel × List String) :=
  runEmplaces tracerMoveIsNoexcept emptyHeap ⟨[], 4⟩ ["v0", "v1", "v2", "v3"]

/-- The relocation part of the fifth `emplace_back("v4")` of exercise
6.1: the vector is full, the new element is constructed, and the four
stored elements are relocated (by move when `useMove`, by copy
otherwise).  Returns the trace the relocation itself emits. -/
def exercise6Relocation (useMove : Bool) : Option (List String) :=
  match ex6State4 with
  | none => none
  | some (h, v, _) =>
    let r := Tracer.construct h "v4"
    (relocateAll useMove r.heap v.elems).map fun x => x.2.2

/-! ## Harness scenarios as straight-line statement lists

The exercises of `Program_01_CopyMove` are blocks of local `Tracer`
declarations, assignments and prints; at the closing brace C++ destroys
the block-scope locals in reverse order of declaration.  Locals are
numbered by declaration order. -/

inductive Stmt where
  | decl (n : String)
  | declCopy (src : Nat)
  | declMove (src : Nat)
  | assignCopy (dst src : Nat)
  | assignMove (dst src : Nat)
  | note (s : String)
  | printName (pre : String) (i : Nat) (post : String)
  | printTwo (pre : String) (i : Nat) (mid : String) (j : Nat) (post : String)
deriving Repr, DecidableEq

structure World where
  heap : Heap
  objs : List Tracer
  out : List String
  ctorOrder : List Nat
  dtorOrder : List Nat
  ub : Bool
deriving Repr, DecidableEq

def initWorld : World := ⟨emptyHeap, [], [], [], [], false⟩

def runStmt (w : World) : Stmt → World
  | .decl n =>
    let r := Tracer.construct w.heap n
    { w with
      heap := r.heap
      objs := w.objs ++ [r.target]
      out := w.out ++ r.trace
      ctorOrder := w.ctorOrder ++ [w.objs.length] }
  | .declCopy src =>
    match w.objs.get? src with
    | none => { w with ub := true }
    | some s =>
      match Tracer.copyConstruct w.heap s with
      | none => { w with ub := true }
      | some r =>
        { w with
          heap := r.heap
          objs := w.objs ++ [r.target]
          out := w.out ++ r.trace
          ctorOrder := w.ctorOrder ++ [w.objs.length] }
  | .declMove src =>
    match w.objs.get? src with
    | none => { w with ub := true }
    | some s =>
      let r := Tracer.moveConstruct w.heap s
      { w with
        heap := r.heap
        objs := (w.objs.set src r.source) ++ [r.target]
        out := w.out ++ r.trace
        ctorOrder := w.ctorOrder ++ [w.objs.length] }
  | .assignCopy dst src =>
    match w.objs.get? dst, w.objs.get? src with
    | some d, some s =>
      match Tracer.copyAssign w.heap d s (dst == src) with
      | none => { w with ub := true }
      | some r =>
        { w with
          heap := r.heap
          objs := w.objs.set dst r.target
          out := w.out ++ r.trace }
    | _, _ => { w with ub := true }
  | .assignMove dst src =>
    match w.objs.get? dst, w.objs.get? src with
    | some d, some s =>
      let r := Tracer.moveAssign w.heap d s (dst == src)
      { w with
        heap := r.heap
        objs := (w.objs.set src r.source).set dst r.target
        out := w.out ++ r.trace }
    | _, _ => { w with ub := true }
  | .note s => { w with out := w.out ++ [s] }
  | .printName pre i post =>
    match w.objs.get? i with
    | none => { w with ub := true }
    | some t => { w with out := w.out ++ [pre ++ t.name ++ post] }
  | .printTwo pre i mid j post =>
    match w.objs.get? i, w.objs.get? j with
    | some a, some b => { w with out := w.out ++ [pre ++ a.name ++ mid ++ b.name ++ post] }
    | _, _ => { w with ub := true }

def destroyLocals (w : World) : List Nat → World
  | [] => w
  | i :: is =>
    match w.objs.get? i with
    | none => destroyLocals { w with ub := true } is
    | some t =>
      let r := Tracer.destruct w.heap t
      destroyLocals
        { w with
          heap := r.heap
          out := w.out ++ r.trace
          dtorOrder := w.dtorOrder ++ [i] } is

/-- Run a block: execute the statements, then destroy the block-scope
locals in reverse order of declaration (the C++ scope-exit rule). -/
def runScope (stmts : List Stmt) : World :=
  let w := stmts.foldl runStmt initWorld
  destroyLocals w (List.range w.objs.length).reverse

def ex1_1 : List Stmt :=
  [.note "🚀 Exercise 1.1", .decl "t1", .declCopy 0, .note "...end of scope"]

def ex1_2 : List Stmt :=
  [.note "🚀 Exercise 1.2", .decl "t1", .decl "t2", .assignCopy 1 0,
   .note "...end of scope"]

def ex2_3 : List Stmt :=
  [.note "🚀 Exercise 2.3", .decl "t1", .declMove 0,
   .printName "State of t1: name = '" 0 "'"]

def ex5_1 : List Stmt :=
  [.note "🚀 Exercise 5.1", .decl "Alice", .decl "Bob",
   .printTwo "Before move: a = " 0 ", b = " 1 "",
   .assignMove 0 1,
   .printTwo "After move:  a = " 0 ", b = " 1 ""]

end RuleOfFive

namespace DispatchMain

/-- `main` of `shallow_vs_deep_copy/src/main.cpp`: `switch (programId)`
with `case 1` / `case 2` (each running one program then `break`) and no
`default`.  Result: the ids of the `Run()` bodies that execute, in
order. -/
def shallowDeepScenarios (programId : Int) : List Int :=
  if programId = 1 then [1]
  else if programId = 2 then [2]
  else []

/-- The lines `main` itself prints around the switch: only the
`std::format("Running program {}...", programId)` banner; the switch has
no `default`, so an unrecognized id adds no error line. -/
def shallowDeepMainOwnOutput (programId : Int) : List String :=
  ["Running program " ++ toString programId ++ "..."]

/-- `main` falls through to `return 0` whatever the selector was. -/
def shallowDeepMainReturn (_programId : Int) : Int := 0

/-- `programId = 1;` overridden by `atoi(argv[1])` when an argument is
present. -/
def shallowDeepProgramId (arg : Option Int) : Int := arg.getD 1

/-- `main` of the `std_format` example: `switch (programId)` with
`case 1` … `case 4`, each with `break`, and no `default`. -/
def formatScenarios (programId : Int) : List Int :=
  if programId = 1 then [1]
  else if programId = 2 then [2]
  else if programId = 3 then [3]
  else if programId = 4 then [4]
  else []

def formatMainOwnOutput (programId : Int) : List String :=
  ["Running program " ++ toString programId ++ "..."]

def formatMainReturn (_programId : Int) : Int := 0

/-- `programId = 4;` overridden by `atoi(argv[1])` when present. -/
def formatProgramId (arg : Option Int) : Int := arg.getD 4

end DispatchMain

namespace NaiveStringDemo

/-- Heap of `char[]` buffers (content modelled as the character list;
the `+1` null terminator is accounted for in `m_size` only). -/
structure CharHeap where
  cells : List (Nat × List Char)
  nextId : Nat
  freed : List Nat
deriving Repr, DecidableEq

def emptyCharHeap : CharHeap := ⟨[], 0, []⟩

def lookupBuf : List (Nat × List Char) → Nat → Option (List Char)
  | [], _ => none
  | p :: ps, b => if p.1 = b then some p.2 else lookupBuf ps b

def removeBuf : List (Nat × List Char) → Nat → List (Nat × List Char)
  | [], _ => []
  | p :: ps, b => if p.1 = b then removeBuf ps b else p :: removeBuf ps b

def charAlloc (h : CharHeap) (content : List Char) : CharHeap × Nat :=
  (⟨(h.nextId, content) :: h.cells, h.nextId + 1, h.freed⟩, h.nextId)

def charRead (h : CharHeap) (b : Nat) : Option (List Char) :=
  lookupBuf h.cells b

/-- `buf[i] = c` through a live buffer pointer. -/
def charWriteAt (h : CharHeap) (b : Nat) (i : Nat) (c : Char) : CharHeap :=
  match lookupBuf h.cells b with
  | none => h
  | some content =>
    ⟨(b, content.set i c) :: removeBuf h.cells b, h.nextId, h.freed⟩

/-- `delete[] p`: removes the buffer and records the freed id (freeing an
already-freed id records it again — the double free is visible as a
duplicate). -/
def charFree (h : CharHeap) (b : Nat) : CharHeap :=
  ⟨removeBuf h.cells b, h.nextId, h.freed ++ [b]⟩

/-- `NaiveString`: `char* m_data` (a buffer id) and `size_t m_size`. -/
structure NaiveString where
  m_data : Nat
  m_size : Nat
deriving Repr, DecidableEq

/-- `NaiveString(const char*)`: `m_size = strlen + 1`, `new char[m_size]`,
`strcpy`. -/
def NaiveString.construct (h : CharHeap) (initial : String) :
    CharHeap × NaiveString × List String :=
  let sz := initial.length + 1
  let (h1, b) := charAlloc h initial.data
  (h1, ⟨b, sz⟩, ["Constructor called for '" ++ initial ++ "'"])

/-- The compiler-generated copy constructor: memberwise (shallow) copy of
`m_data` and `m_size`. -/
def NaiveString.shallowCopy (s : NaiveString) : NaiveString :=
  ⟨s.m_data, s.m_size⟩

/-- `~NaiveString()`: prints the (possibly dangling) buffer content, then
`delete[] m_data`. -/
def NaiveString.destruct (h : CharHeap) (s : NaiveString) : CharHeap × List String :=
  let shown := match charRead h s.m_data with
    | some cs => String.mk cs
    | none => "<dangling>"
  (charFree h s.m_data, ["Destructor called for '" ++ shown ++ "'"])

structure NaiveRunResult where
  str1 : NaiveString
  str2 : NaiveString
  view1AfterWrite : Option (List Char)
  view2AfterWrite : Option (List Char)
  finalHeap : CharHeap
deriving Repr, DecidableEq

/-- `Program_01_Naive_String::Run`: construct `str1("Hello")`, shallow-copy
it into `str2`, write `str2.m_data[0] = 'J'`, observe both, then leave
scope (destroying `str2` first, then `str1`). -/
def naiveRun : NaiveRunResult :=
  let (h1, str1, _) := NaiveString.construct emptyCharHeap "Hello"
  let str2 := str1.shallowCopy
  let h2 := charWriteAt h1 str2.m_data 0 'J'
  let v1 := charRead h2 str1.m_data
  let v2 := charRead h2 str2.m_data
  let (h3, _) := NaiveString.destruct h2 str2
  let (h4, _) := NaiveString.destruct h3 str1
  ⟨str1, str2, v1, v2, h4⟩

end NaiveStringDemo

/-! ## Supporting lemmas -/

namespace RuleOfFive

theorem lookupCell_some_mem {c : Nat} {v : Int} :
    ∀ {l : List (Nat × Int)}, lookupCell l c = some v → (c, v) ∈ l
  | [], h => by simp [lookupCell] at h
  | p :: ps, h => by
    by_cases hc : p.1 = c
    · rw [lookupCell, if_pos hc] at h
      obtain rfl : p.2 = v := Option.some.inj h
      have hp : p = (c, p.2) := by
        obtain ⟨a, b⟩ := p
        simp_all
      rw [← hp]
      exact List.mem_cons_self _ _
    · rw [lookupCell, if_neg hc] at h
      exact List.mem_cons_of_mem _ (lookupCell_some_mem h)

theorem heapRead_lt_of_WF {h : Heap} {c : Nat} {v : Int}
    (hwf : heapWF h) (hr : heapRead h c = some v) : c < h.nextId :=
  hwf (c, v) (lookupCell_some_mem hr)

theorem lookupCell_writeCell_ne {k c : Nat} {w : Int} (hne : c ≠ k) :
    ∀ l : List (Nat × Int), lookupCell (writeCell l k w) c = lookupCell l c := by
  intro l
  induction l with
  | nil => rfl
  | cons p ps ih =>
    by_cases hp : p.1 = k
    · rw [writeCell, if_pos hp, lookupCell, lookupCell]
      have hpc : ¬ p.1 = c := by
        rw [hp]
        exact fun hh => hne hh.symm
      rw [if_neg hpc, if_neg hpc, ih]
    · rw [writeCell, if_neg hp, lookupCell, lookupCell, ih]

theorem copyConstruct_eq_of_read {h : Heap} {t : Tracer} {c : Nat} {v : Int}
    (hres : t.resource = some c) (hread : heapRead h c = some v) :
    Tracer.copyConstruct h t =
      some ⟨⟨(h.nextId, v) :: h.cells, h.nextId + 1, h.freed⟩,
        ⟨t.name, some h.nextId⟩,
        ["  " ++ t.name ++ ": COPY Constructor from " ++ t.name]⟩ := by
  rw [Tracer.copyConstruct, hres]
  simp only [hread, heapAlloc]

theorem copyAssign_eq_of_read {h : Heap} {s t : Tracer} {c : Nat} {v : Int}
    (hres : t.resource = some c) (hread : heapRead h c = some v) :
    Tracer.copyAssign h s t false =
      some ⟨heapDelete ⟨(h.nextId, v) :: h.cells, h.nextId + 1, h.freed⟩ s.resource,
        ⟨t.name, some h.nextId⟩,
        ["  " ++ s.name ++ ": COPY Assignment from " ++ t.name]⟩ := by
  rw [Tracer.copyAssign, if_neg (by simp), hres]
  simp only [hread, heapAlloc]

end RuleOfFive

open RuleOfFive DispatchMain NaiveStringDemo

/-! ## Claims -/

/-- Claim C1 counterexample: on the code, copying FROM a moved-from
`Tracer` (null `resource`) is NOT well-defined — both the copy
constructor and the copy assignment evaluate `new int(*other.resource)`
and reach the invalid dereference of the null resource pointer (the
`none` branch), already at the concrete moved-from instance
`⟨"t1", none⟩`. -/
theorem C1_counterexample :
    Tracer.copyConstruct emptyHeap ⟨"t1", none⟩ = none ∧
    Tracer.copyAssign emptyHeap ⟨"t2", some 0⟩ ⟨"t1", none⟩ false = none :=
  ⟨rfl, rfl⟩

/-- Claim C1 (amended): moving FROM a moved-from `Tracer` is
well-defined (the null resource transfers and both sides end null), but
copy-construction and copy-assignment from a moved-from source always
reach the invalid dereference of the null resource pointer; a copy
completes without invalid dereference when the source's resource is a
live cell. -/
theorem C1_amended :
    (∀ (h : Heap) (n : String), Tracer.copyConstruct h ⟨n, none⟩ = none) ∧
    (∀ (h : Heap) (s : Tracer) (n : String),
      Tracer.copyAssign h s ⟨n, none⟩ false = none) ∧
    (∀ (h : Heap) (t : Tracer) (c : Nat) (v : Int),
      t.resource = some c → heapRead h c = some v →
      ∃ r : CtorResult, Tracer.copyConstruct h t = some r) ∧
    (∀ (h : Heap) (n : String),
      (Tracer.moveConstruct h ⟨n, none⟩).target.resource = none ∧
      (Tracer.moveConstruct h ⟨n, none⟩).source.resource = none) := by
  refine ⟨fun _ _ => rfl, fun _ _ _ => rfl, ?_, fun _ _ => ⟨rfl, rfl⟩⟩
  intro h t c v hres hread
  exact ⟨_, copyConstruct_eq_of_read hres hread⟩

/-- Witness for C1 (amended): a copy from a freshly constructed (live)
source succeeds. -/
theorem C1_amended_witness :
    ∃ r : CtorResult,
      Tracer.copyConstruct (Tracer.construct emptyHeap "t1").heap
        (Tracer.construct emptyHeap "t1").target = some r :=
  C1_amended.2.2.1 _ _ 0 42 rfl rfl

/-- Claim C2: single-owner invariant — after being the source of a
move-construction or move-assignment a `Tracer`'s resource is null; the
destructor of a moved-from instance frees nothing; the destructor of an
owning instance frees exactly its one cell; and in the harness scopes
that move (exercises 2.3 and 5.1, plus the copy scope 1.1) no cell id is
ever freed twice. -/
theorem C2_single_owner :
    (∀ (h : Heap) (t : Tracer), (Tracer.moveConstruct h t).source.resource = none) ∧
    (∀ (h : Heap) (s t : Tracer),
      (Tracer.moveAssign h s t false).source.resource = none) ∧
    (∀ (h : Heap) (n : String), (Tracer.destruct h ⟨n, none⟩).heap.freed = h.freed) ∧
    (∀ (h : Heap) (n : String) (c : Nat),
      (Tracer.destruct h ⟨n, some c⟩).heap.freed = h.freed ++ [c]) ∧
    (runScope ex2_3).heap.freed.Nodup ∧
    (runScope ex5_1).heap.freed.Nodup ∧
    (runScope ex1_1).heap.freed.Nodup :=
  ⟨fun _ _ => rfl, fun _ _ _ => rfl, fun _ _ => rfl, fun _ _ _ => rfl,
   by decide, by decide, by decide⟩

/-- Claim C3: the code diverges from the claim (and from the repository's
own answer key) on move-assignment.  Move-construction does tag the
source's name as claimed (`"t1"` becomes `"t1 [moved]"`), but
move-assignment copies the name (`name = other.name`) instead of moving
it, so `other.name += original + " [moved]"` doubles the original: a
source named `"Bob"` ends as `"BobBob [moved]"`, not `"Bob [moved]"` as
the answer key for exercise 5.1 documents. -/
theorem C3_code_divergence :
    (Tracer.moveConstruct emptyHeap ⟨"t1", some 0⟩).source.name = "t1" ++ " [moved]" ∧
    (Tracer.moveAssign emptyHeap ⟨"Alice", some 0⟩ ⟨"Bob", some 1⟩ false).source.name
      = "BobBob [moved]" ∧
    (Tracer.moveAssign emptyHeap ⟨"Alice", some 0⟩ ⟨"Bob", some 1⟩ false).source.name
      ≠ "Bob" ++ " [moved]" :=
  ⟨rfl, rfl, by decide⟩

/-- Claim C4 counterexample: the `rule_of_five` `Tracer`'s
copy-construction line is `"  t1: COPY Constructor from t1"` — indented
by two spaces and with `Constructor` in mixed case — not the claimed
exact shape `"t1: COPY CONSTRUCTOR from t1"`. -/
theorem C4_counterexample :
    (Tracer.copyConstruct (Tracer.construct emptyHeap "t1").heap
        (Tracer.construct emptyHeap "t1").target).map CtorResult.trace
      = some ["  t1: COPY Constructor from t1"] ∧
    "  t1: COPY Constructor from t1" ≠ "t1: COPY CONSTRUCTOR from t1" :=
  ⟨rfl, by decide⟩

/-- Claim C4 (amended): every lifecycle operation emits exactly one
trace line of a fixed shape, but the `rule_of_five` `Tracer` prints
`"  {name}: COPY Constructor from {other.name}"` (two-space indent,
mixed casing) and `"  {name}: COPY Assignment from {other.name}"`; the
§4 casing `COPY CONSTRUCTOR` matches only the simplified name-only
`Tracer` variant, which prints
`"  {name}: COPY CONSTRUCTOR from {other.name}"`. -/
theorem C4_amended :
    (∀ (h : Heap) (t : Tracer) (c : Nat) (v : Int),
      t.resource = some c → heapRead h c = some v →
      (Tracer.copyConstruct h t).map CtorResult.trace
        = some ["  " ++ t.name ++ ": COPY Constructor from " ++ t.name]) ∧
    (∀ (h : Heap) (s t : Tracer) (c : Nat) (v : Int),
      t.resource = some c → heapRead h c = some v →
      (Tracer.copyAssign h s t false).map CtorResult.trace
        = some ["  " ++ s.name ++ ": COPY Assignment from " ++ t.name]) ∧
    (∀ other : SimpleTracer,
      (SimpleTracer.copyConstruct other).2
        = ["  " ++ other.name ++ ": COPY CONSTRUCTOR from " ++ other.name]) ∧
    (∀ (h : Heap) (n : String), (Tracer.construct h n).trace.length = 1) ∧
    (∀ (h : Heap) (t : Tracer), (Tracer.destruct h t).trace.length = 1) ∧
    (∀ (h : Heap) (t : Tracer), (Tracer.moveConstruct h t).trace.length = 1) ∧
    (∀ (h : Heap) (s t : Tracer), (Tracer.moveAssign h s t false).trace.length = 1) := by
  refine ⟨?_, ?_, fun _ => rfl, fun _ _ => rfl, fun _ _ => rfl,
    fun _ _ => rfl, fun _ _ _ => rfl⟩
  · intro h t c v hres hread
    rw [copyConstruct_eq_of_read hres hread]
    rfl
  · intro h s t c v hres hread
    rw [copyAssign_eq_of_read hres hread]
    rfl

/-- Witness for C4 (amended): the concrete copy of exercise 1.1 and a
concrete `SimpleTracer` copy. -/
theorem C4_amended_witness :
    (Tracer.copyConstruct (Tracer.construct emptyHeap "t1").heap
        (Tracer.construct emptyHeap "t1").target).map CtorResult.trace
      = some ["  " ++ "t1" ++ ": COPY Constructor from " ++ "t1"] ∧
    (SimpleTracer.copyConstruct ⟨"t1"⟩).2
      = ["  " ++ "t1" ++ ": COPY CONSTRUCTOR from " ++ "t1"] :=
  ⟨C4_amended.1 _ _ 0 42 rfl rfl, C4_amended.2.2.1 ⟨"t1"⟩⟩

/-- Claim C5: self-assignment identity — with `this == &other` both
assignment operators return through the guard before any effect: the
object, the heap (so no allocation and no free) and the trace are
unchanged. -/
theorem C5_self_assignment :
    ∀ (h : Heap) (t : Tracer),
      Tracer.copyAssign h t t true = some ⟨h, t, []⟩ ∧
      Tracer.moveAssign h t t true = ⟨h, t, t, []⟩ :=
  fun _ _ => ⟨rfl, rfl⟩

/-- Claim C6: deep-copy independence — copy-constructing from a `Tracer`
whose resource is a live cell `c` allocates the distinct fresh cell
`h.nextId` holding the same value, and any later write through the
copy's cell leaves the value at `c` unchanged. -/
theorem C6_deep_copy :
    ∀ (h : Heap) (a : Tracer) (c : Nat) (v : Int),
      heapWF h → a.resource = some c → heapRead h c = some v →
      ∃ r : CtorResult,
        Tracer.copyConstruct h a = some r ∧
        r.target.name = a.name ∧
        r.target.resource = some h.nextId ∧
        h.nextId ≠ c ∧
        heapRead r.heap h.nextId = some v ∧
        heapRead r.heap c = some v ∧
        ∀ w : Int, heapRead (heapWrite r.heap h.nextId w) c = some v := by
  intro h a c v hwf hres hread
  have hlt : c < h.nextId := heapRead_lt_of_WF hwf hread
  have hne : h.nextId ≠ c := fun e => absurd (e ▸ hlt) (lt_irrefl _)
  refine ⟨⟨⟨(h.nextId, v) :: h.cells, h.nextId + 1, h.freed⟩,
    ⟨a.name, some h.nextId⟩,
    ["  " ++ a.name ++ ": COPY Constructor from " ++ a.name]⟩,
    ?_, rfl, rfl, hne, ?_, ?_, ?_⟩
  · exact copyConstruct_eq_of_read hres hread
  · simp [heapRead, lookupCell]
  · show lookupCell ((h.nextId, v) :: h.cells) c = some v
    rw [lookupCell, if_neg hne]
    exact hread
  · intro w
    show lookupCell (writeCell ((h.nextId, v) :: h.cells) h.nextId w) c = some v
    rw [writeCell, if_pos rfl, lookupCell, if_neg hne,
      lookupCell_writeCell_ne (fun e => hne e.symm)]
    exact hread

/-- Witness for C6: copying the freshly constructed `t1` (cell 0, value
42) allocates cell 1 and mutating it leaves cell 0 at 42. -/
theorem C6_deep_copy_witness :
    ∃ r : CtorResult,
      Tracer.copyConstruct (Tracer.construct emptyHeap "t1").heap
        (Tracer.construct emptyHeap "t1").target = some r ∧
      r.target.name = (Tracer.construct emptyHeap "t1").target.name ∧
      r.target.resource = some (Tracer.construct emptyHeap "t1").heap.nextId ∧
      (Tracer.construct emptyHeap "t1").heap.nextId ≠ 0 ∧
      heapRead r.heap (Tracer.construct emptyHeap "t1").heap.nextId = some 42 ∧
      heapRead r.heap 0 = some 42 ∧
      ∀ w : Int,
        heapRead (heapWrite r.heap (Tracer.construct emptyHeap "t1").heap.nextId w) 0
          = some 42 :=
  C6_deep_copy (Tracer.construct emptyHeap "t1").heap
    (Tracer.construct emptyHeap "t1").target 0 42
    (by unfold heapWF; decide) rfl rfl

/-- Claim C7: in exercise 6.1 the relocation caused by the fifth
`emplace_back` — under the source's `noexcept` move operations — emits
exactly four move-construction lines, one per pre-existing element, each
immediately followed by the matching destructor line of the vacated
old-buffer instance, and zero copy-construction lines. -/
theorem C7_realloc_moves (b : Bool) (hb : b = true) :
    ∃ t : List String,
      exercise6Relocation b = some t ∧
      t = ["  v0: MOVE Constructor from v0", "  v0 [moved]: Destructor",
           "  v1: MOVE Constructor from v1", "  v1 [moved]: Destructor",
           "  v2: MOVE Constructor from v2", "  v2 [moved]: Destructor",
           "  v3: MOVE Constructor from v3", "  v3 [moved]: Destructor"] ∧
      countContaining t "MOVE Constructor" = 4 ∧
      countContaining t "COPY" = 0 ∧
      countContaining t "Destructor" = 4 := by
  subst hb
  exact ⟨_, rfl, rfl, by decide, by decide, by decide⟩

/-- Witness for C7: the relocation trace with the `noexcept` flag set,
as in the source. -/
theorem C7_realloc_moves_witness :
    ∃ t : List String,
      exercise6Relocation tracerMoveIsNoexcept = some t ∧
      t = ["  v0: MOVE Constructor from v0", "  v0 [moved]: Destructor",
           "  v1: MOVE Constructor from v1", "  v1 [moved]: Destructor",
           "  v2: MOVE Constructor from v2", "  v2 [moved]: Destructor",
           "  v3: MOVE Constructor from v3", "  v3 [moved]: Destructor"] ∧
      countContaining t "MOVE Constructor" = 4 ∧
      countContaining t "COPY" = 0 ∧
      countContaining t "Destructor" = 4 :=
  C7_realloc_moves tracerMoveIsNoexcept rfl

/-- Claim C8: in each harness scope that stack-declares at least two
`Tracer` locals (exercises 1.1, 1.2, 2.3 and 5.1) the destructors run in
strict reverse order of construction, with no undefined behaviour. -/
theorem C8_dtor_reverse :
    ((runScope ex1_1).dtorOrder = (runScope ex1_1).ctorOrder.reverse ∧
      2 ≤ (runScope ex1_1).ctorOrder.length ∧ (runScope ex1_1).ub = false) ∧
    ((runScope ex1_2).dtorOrder = (runScope ex1_2).ctorOrder.reverse ∧
      2 ≤ (runScope ex1_2).ctorOrder.length ∧ (runScope ex1_2).ub = false) ∧
    ((runScope ex2_3).dtorOrder = (runScope ex2_3).ctorOrder.reverse ∧
      2 ≤ (runScope ex2_3).ctorOrder.length ∧ (runScope ex2_3).ub = false) ∧
    ((runScope ex5_1).dtorOrder = (runScope ex5_1).ctorOrder.reverse ∧
      2 ≤ (runScope ex5_1).ctorOrder.length ∧ (runScope ex5_1).ub = false) := by
  decide

/-- Claim C9: the integer scenario selectors — for every id outside the
recognized set the switch runs no scenario and `main` prints only its
banner (no error report) and returns 0; each recognized id runs exactly
its scenario. -/
theorem C9_selector :
    (∀ id : Int, id ≠ 1 → id ≠ 2 →
      shallowDeepScenarios id = [] ∧
      shallowDeepMainOwnOutput id = ["Running program " ++ toString id ++ "..."] ∧
      shallowDeepMainReturn id = 0) ∧
    shallowDeepScenarios 1 = [1] ∧
    shallowDeepScenarios 2 = [2] ∧
    (∀ id : Int, id ≠ 1 → id ≠ 2 → id ≠ 3 → id ≠ 4 →
      formatScenarios id = [] ∧
      formatMainOwnOutput id = ["Running program " ++ toString id ++ "..."] ∧
      formatMainReturn id = 0) ∧
    formatScenarios 1 = [1] ∧ formatScenarios 2 = [2] ∧
    formatScenarios 3 = [3] ∧ formatScenarios 4 = [4] := by
  refine ⟨?_, rfl, rfl, ?_, rfl, rfl, rfl, rfl⟩
  · intro id h1 h2
    exact ⟨by simp [shallowDeepScenarios, h1, h2], rfl, rfl⟩
  · intro id h1 h2 h3 h4
    exact ⟨by simp [formatScenarios, h1, h2, h3, h4], rfl, rfl⟩

/-- Witness for C9: the unrecognized selectors 7 and -3 run nothing. -/
theorem C9_selector_witness :
    shallowDeepScenarios 7 = [] ∧ formatScenarios (-3) = [] :=
  ⟨(C9_selector.1 7 (by decide) (by decide)).1,
   (C9_selector.2.2.2.1 (-3) (by decide) (by decide) (by decide) (by decide)).1⟩

/-- Claim C10: in `Program_01_Naive_String::Run` the compiler-generated
copy is shallow — `str2` holds the very same `m_data` buffer as `str1`,
writing `str2.m_data[0] = 'J'` changes the string observed through
`str1` (both now read `"Jello"`), and at scope exit both destructors
`delete[]` the same buffer id, which is therefore freed twice. -/
theorem C10_naive_shallow :
    naiveRun.str2.m_data = naiveRun.str1.m_data ∧
    naiveRun.view1AfterWrite = some "Jello".data ∧
    naiveRun.view1AfterWrite = naiveRun.view2AfterWrite ∧
    naiveRun.finalHeap.freed = [naiveRun.str1.m_data, naiveRun.str1.m_data] ∧
    ¬ naiveRun.finalHeap.freed.Nodup :=
  ⟨rfl, rfl, rfl, rfl, by decide⟩
